import Mathlib

/-!
Shallow embedding of the resilience core of the `mint` repository:
the retry wrapper (`withRetry`, src/api/services/openai.service.js),
the error classifier and error middleware
(src/api/middleware/error.middleware.js), the timeout race and the
session write-back logic of the chat handler
(src/api/controllers/contract.controller.js).

JavaScript values are modelled explicitly: a possibly-absent property is
an `Option`, JS truthiness (`undefined`, `""` and `0` are falsy) is
spelled out in small helper functions, and a thrown `TypeError` is an
`Except.error`.
-/

namespace Mint

/-- `charsContain needle hay` is true iff `needle` occurs contiguously in `hay`. -/
def charsContain (needle : List Char) : List Char → Bool
  | [] => needle.isEmpty
  | c :: rest => needle.isPrefixOf (c :: rest) || charsContain needle rest

/-- JS `s.includes(sub)`: substring test. -/
def jsIncludes (s sub : String) : Bool := charsContain sub.toList s.toList

/-- JS `s.toLowerCase()`, character by character (the signatures the
classifier compares against are ASCII). -/
def jsToLower (s : String) : String := String.mk (s.toList.map Char.toLower)

/-- JS truthiness of a possibly-absent string: `undefined` and `""` are falsy. -/
def jsTruthy : Option String → Bool
  | none => false
  | some s => s != ""

/-- JS `a || b` on strings: `""` is falsy. -/
def jsOrStr (a b : String) : String := if a = "" then b else a

/-- JS `a || b` where `a`, `b` are possibly-absent strings. -/
def jsOrOpt (a b : Option String) : Option String := if jsTruthy a then a else b

/-- JS `x >= n` where `x` may be `undefined`: comparison with `undefined` is false. -/
def jsGe (x : Option Int) (n : Int) : Bool :=
  match x with
  | some v => n ≤ v
  | none => false

/-- The shape of a nested `originalError` as the classifier and the
middleware read it (`name`, `status`, `message` properties). -/
structure OrigError where
  name : String := "Error"
  status : Option Int := none
  message : Option String := some ""
deriving Repr, DecidableEq

/-- A duck-typed JS error value as seen by the middleware and the retry
code. `message := none` models a thrown value with no `message` property
(a real `Error` instance always carries a string `message`, possibly `""`).
`errType` is the `type` property read by `withRetry`. -/
structure RawError where
  name : String := "Error"
  message : Option String := some ""
  status : Option Int := none
  errType : Option String := none
  details : Option String := none
  errors : Option String := none
  stack : Option String := none
  originalError : Option OrigError := none
deriving Repr, DecidableEq

/-- `err.originalError && err.originalError.name === n`. -/
def origNameIs (err : RawError) (n : String) : Bool :=
  match err.originalError with
  | some o => o.name == n
  | none => false

/-- `err.originalError && err.originalError.status === s`. -/
def origStatusEq (err : RawError) (s : Int) : Bool :=
  match err.originalError with
  | some o => o.status == some s
  | none => false

/-- `err.originalError && err.originalError.status >= s`. -/
def origStatusGe (err : RawError) (s : Int) : Bool :=
  match err.originalError with
  | some o => jsGe o.status s
  | none => false

/-- The `context` object carried by an `AppError`
(error.middleware.js, `this.context = options.context || {}`). -/
structure ErrContext where
  code : Option String := none
  retryable : Option Bool := none
  details : Option String := none
deriving Repr, DecidableEq

/-- An `AppError` instance (error.middleware.js lines 11-67). The
constructor sets `name`, `statusCode`, `isOperational`, `code`, `context`
and captures a stack trace; it never sets an own `retryable` or
`originalError` property, so those stay `none` on every constructed
instance (the middleware nevertheless reads them, which we model). -/
structure ClassifiedError where
  name : String
  message : String
  statusCode : Int
  isOperational : Bool
  code : String
  context : ErrContext
  retryable : Option Bool := none
  originalError : Option OrigError := none
  stack : Option String := none
deriving Repr, DecidableEq

/-- `Error.captureStackTrace` captures the call stack at construction
time; its content is runtime-dependent, modelled as an opaque marker. -/
def capturedStack : String := "<stack captured at construction>"

/-- `new AppError(message, statusCode, options)` with
`options = {code, isOperational, context}` and a constructor name
(`this.name = this.constructor.name`). Note `options.retryable` and
`options.originalError`, when passed by `classifyError`, are ignored:
the constructor only reads `code`, `isOperational` and `context`. -/
def mkAppError (message : String) (statusCode : Int) (optionsCode : Option String)
    (optionsIsOperational : Option Bool) (optionsContext : ErrContext)
    (ctorName : String) : ClassifiedError :=
  { name := ctorName
    message := message
    statusCode := statusCode
    isOperational := optionsIsOperational != some false
    code := jsOrStr (optionsCode.getD "") "INTERNAL_ERROR"
    context := optionsContext
    retryable := none
    originalError := none
    stack := some capturedStack }

/-- `new ValidationError(message, context)`:
`super(message, 400, {code: 'VALIDATION_ERROR', isOperational: true, context})`. -/
def mkValidationError (message : String) (context : ErrContext) : ClassifiedError :=
  mkAppError message 400 (some "VALIDATION_ERROR") (some true) context "ValidationError"

/-- `new NotFoundError(message)`:
`super(message, 404, {code: 'NOT_FOUND', isOperational: true, context})`. -/
def mkNotFoundError (message : String) : ClassifiedError :=
  mkAppError message 404 (some "NOT_FOUND") (some true) {} "NotFoundError"

/-- `new ServiceUnavailableError(message, context)`:
`super(message, 503, {code: 'SERVICE_UNAVAILABLE', isOperational: true, context})`. -/
def mkServiceUnavailableError (message : String) (context : ErrContext) : ClassifiedError :=
  mkAppError message 503 (some "SERVICE_UNAVAILABLE") (some true) context
    "ServiceUnavailableError"

/-- The classified error built by the timeout branch of `classifyError`. -/
def timeoutClassified : ClassifiedError :=
  mkServiceUnavailableError "Request timed out. Please try again later."
    { code := some "TIMEOUT", retryable := some true }

/-- `classifyError` (error.middleware.js lines 74-140) on a non-`AppError`
input, branch for branch. `Except.error ()` models the `TypeError` thrown
by `err.message.includes('timeout')` on line 123 when the value has no
`message` property (the later `not found` check on line 131 is guarded by
`err.message &&`, this one is not). -/
def classifyRaw (err : RawError) : Except Unit ClassifiedError :=
  if err.name == "OpenAIError" || origNameIs err "OpenAIError" then
    if err.status == some 429 || origStatusEq err 429 then
      .ok (mkServiceUnavailableError
        "AI service rate limit exceeded. Please try again later."
        { code := some "RATE_LIMIT_EXCEEDED", retryable := some true })
    else if jsGe err.status 500 || origStatusGe err 500 then
      .ok (mkServiceUnavailableError "AI service unavailable. Please try again later."
        { code := some "SERVICE_ERROR", retryable := some true })
    else if err.status == some 401 || origStatusEq err 401 then
      .ok (mkAppError "API authentication failed" 500 (some "AUTH_ERROR") (some false)
        {} "AppError")
    else
      -- `{code: 'AI_SERVICE_ERROR', isOperational: true, retryable: true}`;
      -- the `retryable` option is ignored by the AppError constructor.
      .ok (mkAppError "Error communicating with AI service" 500 (some "AI_SERVICE_ERROR")
        (some true) {} "AppError")
  else if err.name == "ValidationError" || err.name == "SyntaxError" then
    .ok (mkValidationError ((err.message).getD "")
      { details := jsOrOpt err.details err.errors })
  else if err.name == "TimeoutError" then
    .ok timeoutClassified
  else
    match err.message with
    | none => .error ()   -- TypeError: cannot read `includes` of undefined
    | some m =>
      if jsIncludes m "timeout" then
        .ok timeoutClassified
      else if m != "" && jsIncludes (jsToLower m) "not found" then
        .ok (mkNotFoundError m)
      else
        -- `{isOperational: false, originalError: err}`; the `originalError`
        -- option is ignored by the AppError constructor.
        .ok (mkAppError (jsOrStr m "An unexpected error occurred") 500 none (some false)
          {} "AppError")

/-- The error taxonomy of the spec (§3). -/
inductive ErrorKind where
  | RateLimited
  | ServerError
  | AuthError
  | Timeout
  | NotFound
  | Validation
  | Unknown
deriving Repr, DecidableEq

/-- The `ErrorKind` a classified error represents, read off the fields the
classifier branches set (`context.code` for the `ServiceUnavailableError`
variants, `this.code` for the auth case, the constructor name otherwise). -/
def ClassifiedError.kind (ce : ClassifiedError) : ErrorKind :=
  if ce.context.code == some "RATE_LIMIT_EXCEEDED" then .RateLimited
  else if ce.context.code == some "SERVICE_ERROR" then .ServerError
  else if ce.context.code == some "TIMEOUT" then .Timeout
  else if ce.code == "AUTH_ERROR" then .AuthError
  else if ce.name == "ValidationError" then .Validation
  else if ce.name == "NotFoundError" then .NotFound
  else .Unknown

/-- The argument of `classifyError`: either an `AppError` instance (the
`instanceof AppError` pass-through on line 76) or a duck-typed raw error. -/
inductive JsError where
  | app : ClassifiedError → JsError
  | raw : RawError → JsError
deriving Repr, DecidableEq

/-- `classifyError` (error.middleware.js lines 74-140). -/
def classifyError : JsError → Except Unit ClassifiedError
  | .app ce => .ok ce
  | .raw e => classifyRaw e

/-- The user-visible JSON body built by `errorMiddleware`
(error.middleware.js lines 192-220). Absent fields are `none`. -/
structure ErrorResponse where
  error : String
  code : String
  status : Int
  requestId : String
  retryable : Option Bool := none
  details : Option String := none
  stack : Option String := none
  originalErrorName : Option String := none
  originalErrorMessage : Option String := none
deriving Repr, DecidableEq

/-- `errorMiddleware` (error.middleware.js lines 149-236), restricted to
the user-visible response it sends; the logging calls are side channels
and not part of the payload. A `TypeError` escaping `classifyError`
propagates. -/
def errorMiddlewareResponse (nodeEnv : String) (requestId : String) (err : JsError) :
    Except Unit ErrorResponse :=
  match classifyError err with
  | .error te => .error te
  | .ok ce =>
  -- `const isOperational = classifiedError.isOperational !== false`
  let isOperational := ce.isOperational
  -- `const statusCode = classifiedError.statusCode || 500`
  let statusCode : Int := if ce.statusCode == 0 then 500 else ce.statusCode
  let base : ErrorResponse :=
    { error := jsOrStr ce.message "Internal Server Error"
      code := jsOrStr ce.code "INTERNAL_ERROR"
      status := statusCode
      requestId := requestId
      -- `if (classifiedError.retryable !== undefined) ...`
      retryable := ce.retryable
      -- `if (classifiedError instanceof ValidationError && classifiedError.context.details)`
      details := if ce.name == "ValidationError" && jsTruthy ce.context.details then
          ce.context.details
        else none
      stack := none
      originalErrorName := none
      originalErrorMessage := none }
  -- `if (config.nodeEnv === 'development' && !isOperational)`
  if nodeEnv == "development" && !isOperational then
    .ok { base with
      stack := ce.stack
      originalErrorName := (ce.originalError).map (fun o => o.name)
      originalErrorMessage := match ce.originalError with
        | some o => some ((o.message).getD "")
        | none => none }
  else
    .ok base

/-! ## Retry wrapper (`withRetry`, openai.service.js lines 42-89) -/

/-- The options object of `withRetry` (lines 43-48) with the destructuring
defaults applied; `retryAttempts` is the spec's `policy.maxAttempts` and
`retryDelay` its `baseDelayMs`. -/
structure RetryOptions where
  retryAttempts : Nat
  retryDelay : ℚ
  retryableStatusCodes : List Int := [429, 500, 502, 503, 504]
  retryableErrorTypes : List String := ["rate_limit_exceeded", "timeout", "server_error"]
deriving Repr, DecidableEq

/-- Lines 67-71: the retryability test. `error.status && codes.includes(...)`,
`error.type && types.includes(...)`, then the `message` heuristics.
`Except.error ()` models the `TypeError` raised by
`error.message.includes('timeout')` when both short-circuits fell through
and the error has no `message` property. -/
def isRetryableError (error : RawError) (opts : RetryOptions) : Except Unit Bool :=
  let isRetryableStatus :=
    match error.status with
    | some s => s != 0 && opts.retryableStatusCodes.contains s
    | none => false
  let isRetryableType :=
    match error.errType with
    | some t => t != "" && opts.retryableErrorTypes.contains t
    | none => false
  if isRetryableStatus || isRetryableType then .ok true
  else
    match error.message with
    | none => .error ()
    | some m => .ok (jsIncludes m "timeout" || jsIncludes m "network")

/-- The retry decision of line 74: the loop continues (does not break) iff
`!(attempt >= retryAttempts || !isRetryableError)`, that is iff
`attempt < retryAttempts && isRetryableError` — the spec's
`shouldRetry(attemptIndex, policy, classifiedError)`. -/
def shouldRetry (attemptIndex : Nat) (opts : RetryOptions) (retryable : Bool) : Bool :=
  decide (attemptIndex < opts.retryAttempts) && retryable

/-- The ways `withRetry` can finish: return the operation's value, throw
the last raw error after exhausting retries or hitting a non-retryable
error, or let the `TypeError` from the retryability check escape. -/
inductive RetryOutcome (α : Type) where
  | ok : α → RetryOutcome α
  | failed : RawError → RetryOutcome α
  | crashed : RetryOutcome α
deriving Repr, DecidableEq

/-- The `for` loop of `withRetry` (lines 52-85) from iteration `attempt`
on, paired with the number of raw calls it makes from this point.
`op i` is the result of the raw call on attempt `i`. The backoff sleep
(lines 79-83) only suspends and does not affect the result. -/
def withRetryGo {α : Type} (op : Nat → Except RawError α) (opts : RetryOptions)
    (attempt : Nat) : RetryOutcome α × Nat :=
  match op attempt with
  | .ok v => (.ok v, 1)
  | .error e =>
    match isRetryableError e opts with
    | .error _ => (.crashed, 1)
    | .ok retryable =>
      if h : shouldRetry attempt opts retryable = true then
        let rest := withRetryGo op opts (attempt + 1)
        (rest.1, rest.2 + 1)
      else
        -- line 74: break out of the loop; line 88: `throw lastError`
        (.failed e, 1)
termination_by opts.retryAttempts - attempt
decreasing_by
  have hlt : attempt < opts.retryAttempts := by
    unfold shouldRetry at h
    simp only [Bool.and_eq_true, decide_eq_true_eq] at h
    exact h.1
  omega

/-- `withRetry(operation, options)` (lines 42-89), with its raw-call count. -/
def withRetry {α : Type} (op : Nat → Except RawError α) (opts : RetryOptions) :
    RetryOutcome α × Nat :=
  withRetryGo op opts 0

/-! ## Backoff delay (openai.service.js lines 79-80) -/

/-- Line 79: `const jitter = 0.2 * Math.random() * retryDelay` — the
jitter bound is proportional to `retryDelay` (the base delay), not to the
exponentially grown delay. `r` models the `Math.random()` draw, in `[0,1)`. -/
def jitterOf (retryDelay r : ℚ) : ℚ := (1 / 5) * r * retryDelay

/-- Line 80: `const delay = retryDelay * Math.pow(2, attempt) + jitter`. -/
def nextDelay (attempt : Nat) (retryDelay r : ℚ) : ℚ :=
  retryDelay * 2 ^ attempt + jitterOf retryDelay r

/-- The delay rule as the spec's words have it (§4.1): the computed delay
`baseDelayMs * 2^attemptIndex` plus a jitter drawn uniformly from
`[0, jitterFraction * computedDelay]` — written out only to be compared
with `nextDelay`, which is what the source implements. -/
def specNextDelay (attempt : Nat) (baseDelayMs jitterFraction r : ℚ) : ℚ :=
  baseDelayMs * 2 ^ attempt + jitterFraction * r * (baseDelayMs * 2 ^ attempt)

/-- Mean of `nextDelay` over the jitter draw: `r` is uniform on `[0,1)`
with mean `1/2`, so the mean jitter is `(1/5) * (1/2) * retryDelay`. -/
def expectedNextDelay (attempt : Nat) (retryDelay : ℚ) : ℚ :=
  retryDelay * 2 ^ attempt + (1 / 5) * (1 / 2) * retryDelay

/-! ## Timeout race (contract.controller.js lines 175-202) -/

/-- A settled promise: resolved with a value or rejected with an error. -/
inductive PromiseOutcome (α : Type) where
  | resolved : α → PromiseOutcome α
  | rejected : RawError → PromiseOutcome α
deriving Repr, DecidableEq

/-- The rejection produced by the competing timer (line 178):
`new Error('Request processing timed out')`. -/
def chatTimeoutError : RawError :=
  { name := "Error", message := some "Request processing timed out" }

/-- `Promise.race([processingPromise, timeoutPromise])` (line 189) in
settle-time semantics. The processing promise is `none` when it never
settles (hangs), otherwise `some (t, outcome)` with settle time `t` ms
after the race starts; the timer rejects at `timeoutMs`. The race settles
with the earlier event and the later event is dropped by the promise,
never delivered to the caller. A tie at the very same instant is decided
by event-queue order, which this abstraction does not determine; the
theorems below only concern strict orders. -/
def promiseRace {α : Type} (processing : Option (ℚ × PromiseOutcome α))
    (timeoutMs : ℚ) : ℚ × PromiseOutcome α :=
  match processing with
  | none => (timeoutMs, .rejected chatTimeoutError)
  | some (t, o) =>
    if t < timeoutMs then (t, o) else (timeoutMs, .rejected chatTimeoutError)

/-! ## Session store and the chat handler's write-back
(contract.controller.js lines 10-16, 68-110, 118-241) -/

/-- The in-memory session store (lines 10-16): four maps keyed by session
id, modelled extensionally. Conversation entries are opaque to the
session logic, so a conversation is a list of opaque strings. -/
structure SessionStore where
  conversations : String → Option (List String)
  phases : String → Option Nat
  languages : String → Option String
  lastActivity : String → Option ℚ

/-- `map.set(k, v)` on an extensional map. -/
def setKey {β : Type} (m : String → Option β) (k : String) (v : β) :
    String → Option β :=
  fun k2 => if k2 = k then some v else m k2

/-- What `getSessionData` returns to the handler (lines 82-87). -/
structure SessionData where
  conversation : List String
  phase : Nat
  language : String
deriving Repr, DecidableEq

/-- `getSessionData` (lines 68-88): initialize the session if the
`conversations` map misses the key, otherwise refresh `lastActivity`; in
both branches the store is written before the data is read back. After
either branch the three maps read on lines 83-85 hold the key whenever
they did before or were just initialized, so the `getD` defaults are
never exercised on stores produced by this file's operations. -/
def getSessionData (sid : String) (now : ℚ) (defaultLanguage : String)
    (st : SessionStore) : SessionStore × SessionData :=
  let st2 :=
    if (st.conversations sid).isSome then
      { st with lastActivity := setKey st.lastActivity sid now }
    else
      { conversations := setKey st.conversations sid []
        phases := setKey st.phases sid 1
        languages := setKey st.languages sid defaultLanguage
        lastActivity := setKey st.lastActivity sid now }
  (st2,
   { conversation := (st2.conversations sid).getD []
     phase := (st2.phases sid).getD 1
     language := (st2.languages sid).getD defaultLanguage })

/-- The `data` argument of `updateSessionData`; absent fields are `none`. -/
structure UpdateData where
  conversation : Option (List String) := none
  phase : Option Nat := none
  language : Option String := none
deriving Repr, DecidableEq

/-- JS `a || b` where `a` is a possibly-absent number (`0` is falsy). -/
def jsOrNat (a : Option Nat) (b : Nat) : Nat :=
  match a with
  | some p => if p = 0 then b else p
  | none => b

/-- `updateSessionData` (lines 95-110). The guards are JS truthiness: an
array is always truthy (so a present conversation is always written, even
`[]`), `0` and `""` are falsy. `lastActivity` is always refreshed. -/
def updateSessionData (sid : String) (data : UpdateData) (now : ℚ)
    (st : SessionStore) : SessionStore :=
  let st1 :=
    match data.conversation with
    | some c => { st with conversations := setKey st.conversations sid c }
    | none => st
  let st2 :=
    match data.phase with
    | some p => if p ≠ 0 then { st1 with phases := setKey st1.phases sid p } else st1
    | none => st1
  let st3 :=
    match data.language with
    | some l => if l ≠ "" then { st2 with languages := setKey st2.languages sid l } else st2
    | none => st2
  { st3 with lastActivity := setKey st3.lastActivity sid now }

/-- The value of `result` after
`Promise.race(...).catch(error => ({error: error.message, retryable}))`
(lines 189-202): either the service's result object or the catch's error
object. Fields the object lacks are `none`. -/
structure ChatResult where
  conversation : Option (List String) := none
  phase : Option Nat := none
  error : Option String := none
deriving Repr, DecidableEq

/-- The request fields `handleChat` consults for session state. -/
structure ChatRequest where
  sid : String
  newChat : Bool := false
  selectedLanguage : Option String := none
deriving Repr, DecidableEq

/-- The session-store effect of `handleChat` (lines 132-212): read or
initialize the session via `getSessionData`, compute the current
conversation, phase and language (lines 142-162), then write back via
`updateSessionData` only when `result.error` is falsy (lines 205-212).
`supportedLanguages` stands for `Object.values(config.contractLanguages)`
read by `isValidLanguage` (the config module is not among the sources). -/
def handleChatStore (req : ChatRequest) (now : ℚ) (defaultLanguage : String)
    (supportedLanguages : List String) (result : ChatResult) (st : SessionStore) :
    SessionStore :=
  let gsd := getSessionData req.sid now defaultLanguage st
  let st1 := gsd.1
  let sd := gsd.2
  let currentConversation := if req.newChat then [] else sd.conversation
  let currentPhase := if req.newChat then 1 else sd.phase
  let currentLanguage :=
    match req.selectedLanguage with
    | some l =>
      if l ≠ "" ∧ l ≠ sd.language ∧ supportedLanguages.contains l then l
      else sd.language
    | none => sd.language
  if jsTruthy result.error then st1
  else
    updateSessionData req.sid
      { conversation := some ((result.conversation).getD currentConversation)
        phase := some (jsOrNat result.phase currentPhase)
        language := some currentLanguage }
      now st1

/-! ## Concrete sample values used by the theorems below -/

/-- A sample retry policy: `maxAttempts = 2`, base delay 2000 ms. -/
def basePolicy : RetryOptions := { retryAttempts := 2, retryDelay := 2000 }

/-- A retryable raw error: HTTP 500 is in `retryableStatusCodes`. -/
def sampleServerError : RawError :=
  { name := "Error", status := some 500, message := some "boom" }

/-- A non-retryable raw error: HTTP 400, no retryable type, and a message
matching neither `timeout` nor `network`. -/
def sampleBadRequestError : RawError :=
  { name := "Error", status := some 400, message := some "bad params" }

/-- The status code the code's classifier attaches to each kind. -/
def statusOfKind : ErrorKind → Int
  | .RateLimited => 503
  | .ServerError => 503
  | .Timeout => 503
  | .AuthError => 500
  | .Validation => 400
  | .NotFound => 404
  | .Unknown => 500

/-- The raw error of the spec's §8 precedence scenario: HTTP status 500,
message "not found", and a name (`Error`) that is not `OpenAIError`. -/
def c2Error : RawError :=
  { name := "Error", status := some 500, message := some "not found" }

/-- A thrown value with no `message` property and no status. -/
def c5FailingError : RawError := { name := "Boom", message := none }

/-- A raw error landing in the Unknown branch (`isOperational: false`). -/
def c9DevError : RawError := { name := "Boom", message := some "whoops" }

/-- A store holding one existing session `"s1"`. -/
def c10Store : SessionStore :=
  { conversations := fun k => if k = "s1" then some ["hi"] else none
    phases := fun k => if k = "s1" then some 2 else none
    languages := fun k => if k = "s1" then some "solidity" else none
    lastActivity := fun k => if k = "s1" then some 100 else none }

/-- The `result` object `handleChat` sees when the race rejects: the
`.catch` on lines 190-202 turns the rejection into `{error, retryable}`. -/
def c10FailResult : ChatResult := { error := some "Request processing timed out" }

/-! ## Lemmas about the retry loop -/

/-- If every attempt fails with a retryable error, the loop started at
`attempt = a` walks to `retryAttempts` and makes one raw call per
iteration. -/
lemma withRetryGo_allfail {α : Type} (op : Nat → Except RawError α)
    (e : Nat → RawError) (opts : RetryOptions)
    (hfail : ∀ i, op i = .error (e i))
    (hretry : ∀ i, isRetryableError (e i) opts = .ok true) :
    ∀ (k a : Nat), a + k = opts.retryAttempts →
      withRetryGo op opts a = (.failed (e opts.retryAttempts), k + 1) := by
  intro k
  induction k with
  | zero =>
    intro a ha
    have haN : a = opts.retryAttempts := by omega
    rw [withRetryGo]
    simp only [hfail a, hretry a]
    have hs : ¬ (shouldRetry a opts true = true) := by
      simp [shouldRetry]
      omega
    rw [dif_neg hs, haN]
  | succ k ih =>
    intro a ha
    rw [withRetryGo]
    simp only [hfail a, hretry a]
    have hs : shouldRetry a opts true = true := by
      simp [shouldRetry]
      omega
    rw [dif_pos hs, ih (a + 1) (by omega)]

/-- The loop started at `a` never makes more than
`retryAttempts - a + 1` raw calls. -/
lemma withRetryGo_calls_le {α : Type} (op : Nat → Except RawError α)
    (opts : RetryOptions) :
    ∀ (k a : Nat), opts.retryAttempts - a ≤ k → (withRetryGo op opts a).2 ≤ k + 1 := by
  intro k
  induction k with
  | zero =>
    intro a ha
    rw [withRetryGo]
    rcases hop : op a with e | v
    · rcases hre : isRetryableError e opts with te | retryable
      · simp only [hop, hre]
        omega
      · have hs : ¬ (shouldRetry a opts retryable = true) := by
          simp [shouldRetry]
          intro hlt
          omega
        simp only [hop, hre]
        rw [dif_neg hs]
    · simp only [hop]
      omega
  | succ k ih =>
    intro a ha
    rw [withRetryGo]
    rcases hop : op a with e | v
    · rcases hre : isRetryableError e opts with te | retryable
      · simp only [hop, hre]
        omega
      · simp only [hop, hre]
        by_cases hs : shouldRetry a opts retryable = true
        · rw [dif_pos hs]
          have hlt : a < opts.retryAttempts := by
            have hcopy := hs
            simp [shouldRetry] at hcopy
            exact hcopy.1
          have hrec := ih (a + 1) (by omega)
          simpa using Nat.add_le_add_right hrec 1
        · rw [dif_neg hs]
          simp
    · simp only [hop]
      omega

/-- C1: with `maxAttempts = N` (the code's `retryAttempts`), an operation
failing on every invocation with a retryable error makes exactly `N + 1`
raw calls and ends with the last failure thrown; moreover no execution of
`withRetry` under the same policy ever makes more than `N + 1` raw calls. -/
theorem c1_retry_exhausts_in_n_plus_one {α : Type} (op : Nat → Except RawError α)
    (e : Nat → RawError) (opts : RetryOptions)
    (hfail : ∀ i, op i = .error (e i))
    (hretry : ∀ i, isRetryableError (e i) opts = .ok true) :
    withRetry op opts = (.failed (e opts.retryAttempts), opts.retryAttempts + 1) ∧
    ∀ (op2 : Nat → Except RawError α), (withRetry op2 opts).2 ≤ opts.retryAttempts + 1 := by
  constructor
  · exact withRetryGo_allfail op e opts hfail hretry opts.retryAttempts 0 (by omega)
  · intro op2
    exact withRetryGo_calls_le op2 opts opts.retryAttempts 0 (by omega)

theorem c1_witness :
    withRetry (fun _ => (.error sampleServerError : Except RawError Unit)) basePolicy
      = (.failed sampleServerError, 3) ∧
    (withRetry (fun _ => (.ok () : Except RawError Unit)) basePolicy).2 ≤ 3 :=
  ⟨(c1_retry_exhausts_in_n_plus_one (fun _ => .error sampleServerError)
      (fun _ => sampleServerError) basePolicy (fun _ => rfl) (fun _ => rfl)).1,
   (c1_retry_exhausts_in_n_plus_one (fun _ => .error sampleServerError)
      (fun _ => sampleServerError) basePolicy (fun _ => rfl) (fun _ => rfl)).2
     (fun _ => .ok ())⟩

/-- C4: a non-retryable classified error stops the wrapper after exactly
one raw call, whatever `maxAttempts` is; and `shouldRetry` — the loop's
continue condition from line 74 — is true exactly when the attempt index
is below `maxAttempts` and the error is retryable. -/
theorem c4_nonretryable_one_call {α : Type} (op : Nat → Except RawError α)
    (e : RawError) (opts : RetryOptions)
    (h0 : op 0 = .error e) (hnr : isRetryableError e opts = .ok false) :
    withRetry op opts = (.failed e, 1) ∧
    ∀ (i : Nat) (p : RetryOptions) (r : Bool),
      shouldRetry i p r = true ↔ (i < p.retryAttempts ∧ r = true) := by
  constructor
  · rw [withRetry, withRetryGo]
    simp only [h0, hnr]
    have hs : ¬ (shouldRetry 0 opts false = true) := by simp [shouldRetry]
    rw [dif_neg hs]
  · intro i p r
    simp [shouldRetry]

theorem c4_witness :
    withRetry (fun _ => (.error sampleBadRequestError : Except RawError Unit))
        { retryAttempts := 50, retryDelay := 2000 } = (.failed sampleBadRequestError, 1) :=
  (c4_nonretryable_one_call (fun _ => .error sampleBadRequestError)
      sampleBadRequestError { retryAttempts := 50, retryDelay := 2000 } rfl rfl).1

/-! ## Backoff delay claims -/

/-- C3 is false of the code: at attempt index 1 with base delay 2000 and
draw `r = 9/10`, the code computes 4360 (its jitter bound is
`0.2 * 2000`, from the base delay), while the spec's rule — jitter bound
`0.2 * computedDelay = 0.2 * 4000` — gives 4720. -/
theorem c3_counterexample :
    nextDelay 1 2000 (9 / 10) = 4360 ∧
    specNextDelay 1 2000 (1 / 5) (9 / 10) = 4720 ∧
    nextDelay 1 2000 (9 / 10) ≠ specNextDelay 1 2000 (1 / 5) (9 / 10) := by
  refine ⟨?_, ?_, ?_⟩ <;> norm_num [nextDelay, specNextDelay, jitterOf]

/-- C3 amended: `nextDelay(i, policy)` is `baseDelayMs * 2^i` plus a
jitter `jitterFraction * r * baseDelayMs` for the uniform draw
`r ∈ [0, 1)`: the jitter lies in `[0, jitterFraction * baseDelayMs)`, a
bound that scales with the base delay alone and is independent of the
attempt index. -/
theorem c3_amended_jitter_from_base_delay (i : Nat) (base r : ℚ)
    (hb : 0 < base) (h0 : 0 ≤ r) (h1 : r < 1) :
    nextDelay i base r = base * 2 ^ i + jitterOf base r ∧
    0 ≤ jitterOf base r ∧ jitterOf base r < (1 / 5) * base := by
  refine ⟨rfl, ?_, ?_⟩
  · unfold jitterOf
    positivity
  · unfold jitterOf
    nlinarith

theorem c3_amended_witness :
    nextDelay 1 2000 (9 / 10) = 2000 * 2 ^ 1 + jitterOf 2000 (9 / 10) ∧
    0 ≤ jitterOf 2000 (9 / 10) ∧ jitterOf 2000 (9 / 10) < (1 / 5) * 2000 :=
  c3_amended_jitter_from_base_delay 1 2000 (9 / 10) (by norm_num) (by norm_num)
    (by norm_num)

/-- C7: the delay never falls below `baseDelayMs * 2^i` (the jitter is
additive and nonnegative), for a fixed draw the delay is monotone
non-decreasing in the attempt index, and so is its mean over the jitter
draw, `expectedNextDelay`. -/
theorem c7_delay_lower_bound_and_monotone (i : Nat) (base r : ℚ)
    (hb : 0 < base) (h0 : 0 ≤ r) :
    base * 2 ^ i ≤ nextDelay i base r ∧
    (∀ j, i ≤ j → nextDelay i base r ≤ nextDelay j base r) ∧
    (∀ j, i ≤ j → expectedNextDelay i base ≤ expectedNextDelay j base) := by
  have hjit : 0 ≤ jitterOf base r := by
    unfold jitterOf
    positivity
  have hpow : ∀ j : Nat, i ≤ j → base * 2 ^ i ≤ base * 2 ^ j := by
    intro j hij
    have h2 : (2 : ℚ) ^ i ≤ 2 ^ j := pow_le_pow_right₀ (by norm_num) hij
    nlinarith
  refine ⟨?_, ?_, ?_⟩
  · unfold nextDelay
    linarith
  · intro j hij
    unfold nextDelay
    have := hpow j hij
    linarith
  · intro j hij
    unfold expectedNextDelay
    have := hpow j hij
    linarith

theorem c7_witness :
    2000 * 2 ^ 1 ≤ nextDelay 1 2000 (1 / 2) ∧
    (∀ j, 1 ≤ j → nextDelay 1 2000 (1 / 2) ≤ nextDelay j 2000 (1 / 2)) ∧
    (∀ j, 1 ≤ j → expectedNextDelay 1 2000 ≤ expectedNextDelay j 2000) :=
  c7_delay_lower_bound_and_monotone 1 2000 (1 / 2) (by norm_num) (by norm_num)

/-! ## Timeout race claim -/

/-- C6: the race observes exactly one outcome. If the processing promise
settles strictly first its outcome (success or failure) propagates
unchanged; if the timer fires strictly first — in particular when the
processing promise hangs forever — the caller gets the timeout rejection
at time `timeoutMs`, and whatever the processing promise would later
settle to does not influence the observed result (the late arrival is
dropped). -/
theorem c6_timeout_race_one_outcome {α : Type} (t timeoutMs : ℚ)
    (o : PromiseOutcome α) :
    (t < timeoutMs → promiseRace (some (t, o)) timeoutMs = (t, o)) ∧
    (timeoutMs < t →
      promiseRace (some (t, o)) timeoutMs = (timeoutMs, .rejected chatTimeoutError)) ∧
    promiseRace (none : Option (ℚ × PromiseOutcome α)) timeoutMs
      = (timeoutMs, .rejected chatTimeoutError) := by
  refine ⟨?_, ?_, rfl⟩
  · intro h
    simp [promiseRace, h]
  · intro h
    simp [promiseRace, not_lt_of_gt h]

theorem c6_witness :
    promiseRace (some ((3 : ℚ), PromiseOutcome.resolved (7 : Nat))) 1000
      = (3, .resolved 7) ∧
    promiseRace (some ((90000 : ℚ), PromiseOutcome.resolved (7 : Nat))) 60000
      = (60000, .rejected chatTimeoutError) ∧
    promiseRace (none : Option (ℚ × PromiseOutcome Nat)) 60000
      = (60000, .rejected chatTimeoutError) :=
  ⟨(c6_timeout_race_one_outcome 3 1000 (PromiseOutcome.resolved 7)).1 (by norm_num),
   (c6_timeout_race_one_outcome 90000 60000 (PromiseOutcome.resolved 7)).2.1 (by norm_num),
   (c6_timeout_race_one_outcome 0 60000 (PromiseOutcome.resolved (0 : Nat))).2.2⟩

/-! ## Error classifier claims -/

/-- C2 is false of the code: a raw error with HTTP status 500 and message
"not found" that is not recognized as an OpenAI error (its `name` is the
ordinary `Error`, no nested `originalError`) is classified by the message
heuristic as NotFound (status 404), not as ServerError — the status-code
checks are only reached for OpenAI-named errors. -/
theorem c2_counterexample :
    (classifyRaw c2Error).map ClassifiedError.kind = .ok .NotFound ∧
    (classifyRaw c2Error).map ClassifiedError.kind ≠ .ok .ServerError := by
  have h1 : (classifyRaw c2Error).map ClassifiedError.kind = .ok .NotFound := by rfl
  refine ⟨h1, ?_⟩
  rw [h1]
  intro hcon
  exact ErrorKind.noConfusion (Except.ok.inj hcon)

/-- C2 amended: the status-over-message precedence holds for errors the
classifier recognizes as OpenAI errors: an error named `OpenAIError` with
status ≥ 500 is classified ServerError whatever its message says — in
particular when the message is "not found". -/
theorem c2_amended_openai_status_precedence (s : Int) (m : String) (hs : 500 ≤ s) :
    (classifyRaw { name := "OpenAIError", status := some s, message := some m }).map
      ClassifiedError.kind = .ok .ServerError := by
  have h429 : ((some s : Option Int) == some 429) = false := by
    simp only [beq_eq_false_iff_ne, ne_eq, Option.some.injEq]
    omega
  have hsge : jsGe (some s) 500 = true := by
    simp only [jsGe, decide_eq_true_eq]
    exact hs
  unfold classifyRaw
  simp only [origNameIs, origStatusEq, origStatusGe, h429, hsge, Bool.or_false,
    Bool.false_or, Bool.true_or, Bool.or_true, beq_self_eq_true, if_true, if_false]
  rfl

theorem c2_amended_witness :
    (classifyRaw { name := "OpenAIError", status := some 500,
                   message := some "not found" }).map ClassifiedError.kind
      = .ok .ServerError :=
  c2_amended_openai_status_precedence 500 "not found" (by norm_num)

/-- C5 names a totality the code does not have: on a thrown value with no
`message` property (and no status), the unguarded
`err.message.includes('timeout')` on line 123 raises a TypeError instead
of returning a classified error — even though the `not found` check on
line 131 guards the same access with `err.message &&`, showing the
intended handling of a missing message. -/
theorem c5_classify_throws_without_message :
    classifyError (.raw c5FailingError) = .error () := rfl

/-- Classification is total on every raw error that carries a string
message — the shape every real JS `Error` instance has (the claim's "no
status and an empty message" case included). -/
lemma classifyRaw_total_with_message (e : RawError) (m : String)
    (hm : e.message = some m) : ∃ ce, classifyRaw e = .ok ce := by
  unfold classifyRaw
  rw [hm]
  repeat' split
  all_goals first
    | exact ⟨_, rfl⟩
    | simp_all

/-- Every classified error the classifier produces carries the status
code of its kind, and that status is never 0. -/
lemma classifyRaw_status_of_kind (e : RawError) (ce : ClassifiedError)
    (h : classifyRaw e = .ok ce) :
    ce.statusCode = statusOfKind ce.kind ∧ ce.statusCode ≠ 0 := by
  unfold classifyRaw at h
  repeat' split at h
  all_goals first
    | (simp only [Except.ok.injEq] at h; subst h;
       refine ⟨rfl, by simp [mkValidationError, mkNotFoundError,
         mkServiceUnavailableError, timeoutClassified, mkAppError]⟩)
    | (exact absurd h (by simp))

/-- The middleware's response status is the classified error's
`statusCode` whenever the latter is nonzero (`statusCode || 500`). -/
lemma errorMiddlewareResponse_status (nodeEnv requestId : String) (err : JsError)
    (ce : ClassifiedError) (h : classifyError err = .ok ce) (p : ErrorResponse)
    (hp : errorMiddlewareResponse nodeEnv requestId err = .ok p)
    (hnz : ce.statusCode ≠ 0) :
    p.status = ce.statusCode := by
  unfold errorMiddlewareResponse at hp
  rw [h] at hp
  have hz : (ce.statusCode == 0) = false := by
    simp only [beq_eq_false_iff_ne, ne_eq]
    exact hnz
  simp only [hz] at hp
  split at hp <;> (injection hp with hp2; subst hp2; rfl)

/-- C8: every error the classifier maps lands on the status its kind
prescribes — RateLimited, ServerError and Timeout on 503 (inside the
spec's 503/504 set), AuthError on 500, Validation on 400, NotFound on
404, Unknown on 500 — and the HTTP response produced by the error
middleware carries exactly that status. -/
theorem c8_response_status_determined_by_kind (e : RawError) (ce : ClassifiedError)
    (h : classifyRaw e = .ok ce) :
    ce.statusCode = statusOfKind ce.kind ∧
    ((ce.kind = .RateLimited ∨ ce.kind = .ServerError ∨ ce.kind = .Timeout) →
      (ce.statusCode = 503 ∨ ce.statusCode = 504)) ∧
    (ce.kind = .AuthError → ce.statusCode = 500) ∧
    (ce.kind = .Validation → ce.statusCode = 400) ∧
    (ce.kind = .NotFound → ce.statusCode = 404) ∧
    (ce.kind = .Unknown → ce.statusCode = 500) ∧
    ∀ (nodeEnv requestId : String) (p : ErrorResponse),
      errorMiddlewareResponse nodeEnv requestId (.raw e) = .ok p →
      p.status = ce.statusCode := by
  obtain ⟨hsk, hnz⟩ := classifyRaw_status_of_kind e ce h
  refine ⟨hsk, ?_, ?_, ?_, ?_, ?_, ?_⟩
  · rintro (hk | hk | hk) <;> rw [hsk, hk] <;> exact Or.inl rfl
  · intro hk
    rw [hsk, hk]
    rfl
  · intro hk
    rw [hsk, hk]
    rfl
  · intro hk
    rw [hsk, hk]
    rfl
  · intro hk
    rw [hsk, hk]
    rfl
  · intro nodeEnv requestId p hp
    exact errorMiddlewareResponse_status nodeEnv requestId (.raw e) ce h p hp hnz

theorem c8_witness :
    (mkNotFoundError "not found").statusCode
        = statusOfKind (mkNotFoundError "not found").kind ∧
    ∀ (p : ErrorResponse),
      errorMiddlewareResponse "production" "r1" (.raw c2Error) = .ok p →
      p.status = (mkNotFoundError "not found").statusCode := by
  have h := c8_response_status_determined_by_kind c2Error (mkNotFoundError "not found") rfl
  exact ⟨h.1, fun p hp => h.2.2.2.2.2.2 "production" "r1" p hp⟩

/-! ## Redaction claims -/

/-- C9 is false in the development configuration: with
`config.nodeEnv = 'development'`, a non-operational error's user-visible
response body carries the stack trace. -/
theorem c9_counterexample :
    (errorMiddlewareResponse "development" "req-1" (.raw c9DevError)).map
      ErrorResponse.stack = .ok (some capturedStack) := rfl

/-- C9 amended: outside the development configuration the user-visible
payload never carries a stack trace or original-error detail, and the
payload is invariant under changes to the incoming error's stack — two
runs differing only in that internal detail produce identical payloads. -/
theorem c9_amended_no_internal_detail_outside_development
    (nodeEnv requestId : String) (hdev : nodeEnv ≠ "development") :
    (∀ (err : JsError) (p : ErrorResponse),
      errorMiddlewareResponse nodeEnv requestId err = .ok p →
      p.stack = none ∧ p.originalErrorName = none ∧ p.originalErrorMessage = none) ∧
    (∀ (e : RawError) (s s2 : Option String),
      errorMiddlewareResponse nodeEnv requestId (.raw { e with stack := s })
        = errorMiddlewareResponse nodeEnv requestId (.raw { e with stack := s2 })) ∧
    (∀ (ce : ClassifiedError) (s s2 : Option String),
      errorMiddlewareResponse nodeEnv requestId (.app { ce with stack := s })
        = errorMiddlewareResponse nodeEnv requestId (.app { ce with stack := s2 })) := by
  have hbeq : (nodeEnv == "development") = false := by
    simp only [beq_eq_false_iff_ne, ne_eq]
    exact hdev
  refine ⟨?_, ?_, ?_⟩
  · intro err p hp
    unfold errorMiddlewareResponse at hp
    rcases hce : classifyError err with te | ce <;> rw [hce] at hp
    · simp at hp
    · simp only [hbeq, Bool.false_and, if_neg Bool.false_ne_true] at hp
      injection hp with hp2
      subst hp2
      exact ⟨rfl, rfl, rfl⟩
  · intro e s s2
    cases e
    rfl
  · intro ce s s2
    cases ce
    unfold errorMiddlewareResponse classifyError
    simp only [hbeq, Bool.false_and, if_neg Bool.false_ne_true]

theorem c9_amended_witness :
    ("production" ≠ "development") ∧
    errorMiddlewareResponse "production" "r" (.raw { c9DevError with stack := none })
      = errorMiddlewareResponse "production" "r"
          (.raw { c9DevError with stack := some "secret stack" }) :=
  ⟨by decide,
   (c9_amended_no_internal_detail_outside_development "production" "r"
      (by decide)).2.1 c9DevError none (some "secret stack")⟩

/-! ## Session write-back claim -/

/-- C10 is false of the code as stated: even when processing fails,
`getSessionData` has already refreshed the session's `lastActivity` at
request start, so part of the per-session state is written on the error
path (the stored conversation and phase do remain unchanged). -/
theorem c10_counterexample :
    (handleChatStore { sid := "s1" } 200 "solidity" ["solidity"] c10FailResult
        c10Store).lastActivity "s1" = some 200 ∧
    c10Store.lastActivity "s1" = some 100 := by
  exact ⟨rfl, rfl⟩

/-- C10 amended: conversation, phase and language are written back only
when processing produced no error — on the error path the
`conversations`, `phases` and `languages` maps of an existing session are
exactly as before the request — but `lastActivity` is refreshed by
`getSessionData` at request start regardless of the outcome. -/
theorem c10_amended_error_path_keeps_data (req : ChatRequest) (now : ℚ)
    (dl : String) (langs : List String) (result : ChatResult) (st : SessionStore)
    (herr : jsTruthy result.error = true)
    (hex : (st.conversations req.sid).isSome = true) :
    (handleChatStore req now dl langs result st).conversations = st.conversations ∧
    (handleChatStore req now dl langs result st).phases = st.phases ∧
    (handleChatStore req now dl langs result st).languages = st.languages ∧
    (handleChatStore req now dl langs result st).lastActivity
      = setKey st.lastActivity req.sid now := by
  unfold handleChatStore getSessionData
  simp [hex, herr]

theorem c10_amended_witness :
    (handleChatStore { sid := "s1" } 200 "solidity" ["solidity"] c10FailResult
        c10Store).conversations = c10Store.conversations ∧
    (handleChatStore { sid := "s1" } 200 "solidity" ["solidity"] c10FailResult
        c10Store).phases = c10Store.phases ∧
    (handleChatStore { sid := "s1" } 200 "solidity" ["solidity"] c10FailResult
        c10Store).languages = c10Store.languages ∧
    (handleChatStore { sid := "s1" } 200 "solidity" ["solidity"] c10FailResult
        c10Store).lastActivity = setKey c10Store.lastActivity "s1" 200 :=
  c10_amended_error_path_keeps_data { sid := "s1" } 200 "solidity" ["solidity"]
    c10FailResult c10Store rfl rfl

end Mint
